import Mathlib

/-!
Shallow embedding of the InSighto analysis pipeline
(`core/cleaner.py`, `core/profiler.py`, `core/analyzer.py`, `core/agent.py`)
and proofs settling the frozen claims about it.

Conventions of the embedding:
* a cell is `Option Val` — `none` is pandas `NaN`;
* numbers are `ℚ` (exact arithmetic; every threshold comparison the claims
  exercise is exact in both Python floats and `ℚ`);
* a dataframe is a list of columns, each with a name, a declared dtype and
  a cell list; row-wise operations go through an explicit row view;
* library primitives (`pd.to_numeric` on a string, `Series.median`,
  `Series.mode`, `Series.quantile` with linear interpolation) are modelled
  by executable Lean functions with the documented pandas semantics
  (NaN-skipping, interpolated quantiles, sorted modes).
-/

namespace InSighto

/-- A scalar cell value: a number or a string. -/
inductive Val where
  | num (q : ℚ)
  | str (s : String)
deriving DecidableEq, Repr

/-- A cell of a dataframe; `none` models pandas `NaN`. -/
abbrev Cell := Option Val

/-- The declared dtype of a column (`int64`/`float64` collapse to `numeric`;
anything that is neither numeric nor `datetime64[ns]` is `object`). -/
inductive DType where
  | numeric
  | object
  | datetime
deriving DecidableEq, Repr

/-- A named, typed column with its cells. -/
structure Col where
  name : String
  dtype : DType
  cells : List Cell
deriving DecidableEq, Repr

/-- A dataframe: an ordered list of columns. -/
structure DF where
  cols : List Col
deriving DecidableEq, Repr

/-- `len(df)`: the row count, read off the first column. -/
def DF.nrows (df : DF) : ℕ :=
  match df.cols with
  | [] => 0
  | c :: _ => c.cells.length

/-- The `i`-th row as the list of the `i`-th cell of every column. -/
def DF.rowAt (df : DF) (i : ℕ) : List Cell :=
  df.cols.map (fun c => c.cells.getD i none)

/-- The row-major view of a dataframe. -/
def DF.rowsOf (df : DF) : List (List Cell) :=
  (List.range df.nrows).map df.rowAt

/-- Rebuild the columns of a dataframe from a row-major view, keeping each
name and dtype of each column. -/
def rebuildCols (cols : List Col) (rows : List (List Cell)) : List Col :=
  (List.range cols.length).map (fun j =>
    let c := cols.getD j ⟨"", DType.object, []⟩
    { c with cells := rows.map (fun r => r.getD j none) })

/-- Every column holds exactly `nrows` cells. -/
def DF.wf (df : DF) : Prop :=
  ∀ c ∈ df.cols, c.cells.length = df.nrows

/-! ### Numeric parsing (model of `pd.to_numeric` on one value) -/

/-- Parse a nonempty digit string into a natural number. -/
def parseDigitsAux : List Char → ℕ → Option ℕ
  | [], acc => some acc
  | ch :: cs, acc =>
    if ch.isDigit then parseDigitsAux cs (acc * 10 + (ch.toNat - 48)) else none

/-- Parse a digit string; empty input is a failure. -/
def parseDigits (cs : List Char) : Option ℕ :=
  if cs.isEmpty then none else parseDigitsAux cs 0

/-- Model of `pd.to_numeric` on a single string: optional sign, integer
part, optional fractional part; anything else fails. -/
def parseNumeric (s : String) : Option ℚ :=
  let t := s.trim
  let sign : ℚ := if t.startsWith "-" then -1 else 1
  let body := if t.startsWith "-" || t.startsWith "+" then t.drop 1 else t
  match body.splitOn "." with
  | [intPart] => (parseDigits intPart.data).map (fun n => sign * (n : ℚ))
  | [intPart, fracPart] =>
    match parseDigits intPart.data, parseDigits fracPart.data with
    | some a, some b =>
      some (sign * ((a : ℚ) + (b : ℚ) / ((10 : ℚ) ^ fracPart.length)))
    | _, _ => none
  | _ => none

/-- Numeric coercion of one cell: numbers pass through, strings are parsed,
missing stays missing (non-convertible becomes missing at the call site). -/
def cellToNumeric : Cell → Option ℚ
  | none => none
  | some (Val.num q) => some q
  | some (Val.str s) => parseNumeric s

/-! ### Sorting, median, mode, quantile (models of the pandas primitives) -/

/-- Insert into a sorted list of rationals. -/
def insertSorted (x : ℚ) : List ℚ → List ℚ
  | [] => [x]
  | y :: ys => if x ≤ y then x :: y :: ys else y :: insertSorted x ys

/-- Sort a list of rationals ascending. -/
def sortQ (l : List ℚ) : List ℚ := l.foldr insertSorted []

/-- Model of `Series.median` over the non-missing values: middle element
for odd length, mean of the two middles for even length, `none` when there
are no values. -/
def median (l : List ℚ) : Option ℚ :=
  let s := sortQ l
  let n := s.length
  if n = 0 then none
  else if n % 2 = 1 then some (s.getD (n / 2) 0)
  else some ((s.getD (n / 2 - 1) 0 + s.getD (n / 2) 0) / 2)

/-- Boolean lexicographic order on char lists. -/
def charListLeB : List Char → List Char → Bool
  | [], _ => true
  | _ :: _, [] => false
  | a :: as, b :: bs => if a = b then charListLeB as bs else decide (a < b)

/-- Boolean order on values: numbers before strings, numbers by `≤` on `ℚ`,
strings lexicographically (pandas sorts the mode candidates). -/
def valLe : Val → Val → Bool
  | Val.num a, Val.num b => decide (a ≤ b)
  | Val.num _, Val.str _ => true
  | Val.str _, Val.num _ => false
  | Val.str a, Val.str b => charListLeB a.data b.data

/-- Insert into a list sorted by `valLe`. -/
def insertVal (x : Val) : List Val → List Val
  | [] => [x]
  | y :: ys => if valLe x y then x :: y :: ys else y :: insertVal x ys

/-- Sort values by `valLe`. -/
def sortVals (l : List Val) : List Val := l.foldr insertVal []

/-- Model of `Series.mode()[0]`: the smallest among the most frequent
non-missing values, `none` when there are no values. -/
def modeD (l : List Val) : Option Val :=
  let cands := l.dedup
  let mx := (cands.map (fun v => l.count v)).foldr max 0
  (sortVals (cands.filter (fun v => l.count v = mx))).head?

/-- The non-missing values of a column. -/
def colValues (c : Col) : List Val := c.cells.filterMap id

/-- The non-missing numeric values of a column (pandas statistics skip NaN). -/
def colNumericValues (c : Col) : List ℚ :=
  c.cells.filterMap (fun cell =>
    match cell with
    | some (Val.num q) => some q
    | _ => none)

/-- Model of `Series.quantile q` with linear interpolation over a sorted
nonempty list: position `q·(n−1)`, interpolating between the neighbours. -/
def quantileSorted (s : List ℚ) (q : ℚ) : ℚ :=
  match s with
  | [] => 0
  | _ =>
    let n := s.length
    let pos : ℚ := q * ((n : ℚ) - 1)
    let lo : ℕ := pos.floor.toNat
    let frac : ℚ := pos - (lo : ℚ)
    let a := s.getD lo 0
    let b := s.getD (lo + 1) a
    a + frac * (b - a)

/-! ### Cleaner (`core/cleaner.py`, `DataCleaner`) -/

/-- The running state of a cleaning run: the dataframe being transformed
and the report accumulated so far. -/
structure CState where
  df : DF
  report : List String
deriving DecidableEq, Repr

/-- `DataCleaner._standardize_columns`: `df.columns = df.columns.astype(str)`.
Column names are already strings in the embedding, so the coercion succeeds
and — as in the source, which appends only when the coercion raises —
nothing is added to the report. -/
def standardizeColumns (st : CState) : CState := st

/-- Keep the first occurrence of every row (`DataFrame.drop_duplicates`;
pandas treats NaN cells as equal when comparing rows, as `Option.none` is). -/
def dedupKeepFirst (rows : List (List Cell)) : List (List Cell) :=
  rows.foldl (fun acc r => if r ∈ acc then acc else acc ++ [r]) []

/-- `DataCleaner._remove_duplicates`: drop exact-duplicate rows and append
one report entry either way. -/
def removeDuplicates (st : CState) : CState :=
  let rows := st.df.rowsOf
  let kept := dedupKeepFirst rows
  let removed := rows.length - kept.length
  { df := ⟨rebuildCols st.df.cols kept⟩,
    report := st.report ++
      [if removed > 0 then "Removed " ++ toString removed ++ " duplicate rows"
       else "No duplicate rows found"] }

/-- The cells of a column after `pd.to_numeric` with coerce-errors:
convertible values become numbers, the rest become missing. -/
def convertedCells (c : Col) : List Cell :=
  c.cells.map (fun cell => (cellToNumeric cell).map Val.num)

/-- The loop body of `DataCleaner._fix_data_types` for one column: an
`object` column is converted to numeric form exactly when the count of
successfully converted cells, over `len(df)` (`nrows`), exceeds `0.7`.
Returns the (possibly converted) column and whether a change was made. -/
def fixTypeCol (nrows : ℕ) (c : Col) : Col × Bool :=
  if c.dtype = DType.object then
    let conv := convertedCells c
    let nonNull := (conv.filterMap id).length
    if ((nonNull : ℚ) / (nrows : ℚ)) > 7 / 10 then
      ({ c with dtype := DType.numeric, cells := conv }, true)
    else (c, false)
  else (c, false)

/-- `DataCleaner._fix_data_types`: convert qualifying object columns and
append one report entry either way. -/
def fixDataTypes (st : CState) : CState :=
  let nrows := st.df.nrows
  let results := st.df.cols.map (fixTypeCol nrows)
  let changes := results.filterMap (fun r =>
    if r.2 then some (r.1.name ++ ": text to numeric") else none)
  { df := ⟨results.map (fun r => r.1)⟩,
    report := st.report ++
      [if changes.isEmpty then "Data types are appropriate"
       else "Fixed data types: " ++ String.intercalate ", " changes] }

/-- The loop body of `DataCleaner._handle_missing_values` for one column:
no entry when nothing is missing; a kept-as-is entry when the missing share
of `len(df)` (`nrows`) exceeds 50%; otherwise numeric columns are filled
with the pre-imputation median and other columns with the mode (or the
string `Unknown` when no mode exists). -/
def fillMissingCol (nrows : ℕ) (c : Col) : Col × List String :=
  let missing := c.cells.count none
  if missing = 0 then (c, [])
  else if ((missing : ℚ) / (nrows : ℚ)) * 100 > 50 then
    (c, [c.name ++ ": " ++ toString missing ++ " missing - kept as-is"])
  else if c.dtype = DType.numeric then
    match median (colNumericValues c) with
    | some m =>
      ({ c with cells := c.cells.map (fun cell => some (cell.getD (Val.num m))) },
       [c.name ++ ": filled " ++ toString missing ++ " with median"])
    | none =>
      (c, [c.name ++ ": filled " ++ toString missing ++ " with median"])
  else
    match modeD (colValues c) with
    | some mv =>
      ({ c with cells := c.cells.map (fun cell => some (cell.getD mv)) },
       [c.name ++ ": filled " ++ toString missing ++ " with mode"])
    | none =>
      ({ c with cells := c.cells.map (fun cell => some (cell.getD (Val.str "Unknown"))) },
       [c.name ++ ": filled " ++ toString missing ++ " with Unknown"])

/-- `DataCleaner._handle_missing_values`: fill each column per
`fillMissingCol` and append one report entry either way. -/
def handleMissingValues (st : CState) : CState :=
  let nrows := st.df.nrows
  let results := st.df.cols.map (fillMissingCol nrows)
  let info := (results.map (fun r => r.2)).flatten
  { df := ⟨results.map (fun r => r.1)⟩,
    report := st.report ++
      [if info.isEmpty then "No missing values found"
       else "Handled missing values: " ++ String.intercalate "; " info] }

/-- A row survives `dropna` with how=all when not all of its cells are missing. -/
def keepRowB (r : List Cell) : Bool :=
  !(r.all (fun cell => decide (cell = none)))

/-- A column survives column-wise `dropna` with how=all when it is empty or not
all of its cells are missing. -/
def keepColB (c : Col) : Bool :=
  c.cells.isEmpty || !(c.cells.all (fun cell => decide (cell = none)))

/-- How many rows plus columns `DataCleaner._remove_empty` would drop. -/
def emptyRemoved (df : DF) : ℕ :=
  let rows := df.rowsOf
  let kept := rows.filter keepRowB
  let cols1 := rebuildCols df.cols kept
  (rows.length - kept.length) + (cols1.length - (cols1.filter keepColB).length)

/-- `DataCleaner._remove_empty`: drop all-missing rows, then all-missing
columns; a report entry is appended only when something was removed. -/
def removeEmpty (st : CState) : CState :=
  let rows := st.df.rowsOf
  let kept := rows.filter keepRowB
  let emptyRows := rows.length - kept.length
  let cols1 := rebuildCols st.df.cols kept
  let cols2 := cols1.filter keepColB
  let emptyCols := cols1.length - cols2.length
  { df := ⟨cols2⟩,
    report := st.report ++
      (if emptyRows > 0 || emptyCols > 0 then
        ["Removed " ++ toString emptyRows ++ " empty rows and " ++
          toString emptyCols ++ " empty columns"]
       else []) }

/-- IQR outlier count of one column: values outside
`[Q1 − 1.5·IQR, Q3 + 1.5·IQR]` among the non-missing values (NaN compares
false in pandas, so missing cells are never counted). -/
def outlierCount (c : Col) : ℕ :=
  let vals := colNumericValues c
  match vals with
  | [] => 0
  | _ =>
    let s := sortQ vals
    let q1 := quantileSorted s (1 / 4)
    let q3 := quantileSorted s (3 / 4)
    let iqr := q3 - q1
    let lo := q1 - (3 / 2) * iqr
    let hi := q3 + (3 / 2) * iqr
    (vals.filter (fun v => decide (v < lo) || decide (hi < v))).length

/-- `DataCleaner._detect_outliers`: count IQR outliers of every numeric
column, report only; one report entry is appended either way. -/
def detectOutliers (st : CState) : CState :=
  let infos := (st.df.cols.filter (fun c => decide (c.dtype = DType.numeric))).filterMap
    (fun c =>
      let k := outlierCount c
      if k > 0 then some (c.name ++ ": " ++ toString k ++ " potential outliers")
      else none)
  { df := st.df,
    report := st.report ++
      [if infos.isEmpty then "No significant outliers detected"
       else "Outliers detected, not removed: " ++ String.intercalate "; " infos] }

/-- `DataCleaner.clean`: the full pipeline in source order, returning the
cleaned dataframe and the cleaning report. -/
def clean (df : DF) : DF × List String :=
  let st := detectOutliers (removeEmpty (handleMissingValues (fixDataTypes
    (removeDuplicates (standardizeColumns ⟨df, []⟩)))))
  (st.df, st.report)

/-! ### Profiler (`core/profiler.py`, `DataProfiler._classify_columns`) -/

/-- The classification bucket of a column. -/
inductive CKind where
  | numericK
  | categoricalK
  | datetimeK
deriving DecidableEq, Repr

/-- `Series.nunique`: the number of distinct non-missing values. -/
def uniqueCount (c : Col) : ℕ := (colValues c).dedup.length

/-- The loop body of `DataProfiler._classify_columns` for one column of a
dataframe with `nrows` rows (`len(self.df)`): a numeric-typed column is
reclassified categorical when its unique count is `< 10` and
`< len(df) * 0.05`; a datetime column is datetime; everything else is
categorical. -/
def classifyCol (nrows : ℕ) (c : Col) : CKind :=
  if c.dtype = DType.numeric then
    if uniqueCount c < 10 ∧ ((uniqueCount c : ℚ) < (nrows : ℚ) * (5 / 100)) then
      CKind.categoricalK
    else CKind.numericK
  else if c.dtype = DType.datetime then CKind.datetimeK
  else CKind.categoricalK

/-- `DataProfiler._classify_columns`: the three disjoint name lists. -/
def classifyColumns (df : DF) : List String × List String × List String :=
  let tag := df.cols.map (fun c => (c.name, classifyCol df.nrows c))
  ((tag.filter (fun p => p.2 = CKind.numericK)).map (fun p => p.1),
   (tag.filter (fun p => p.2 = CKind.categoricalK)).map (fun p => p.1),
   (tag.filter (fun p => p.2 = CKind.datetimeK)).map (fun p => p.1))

/-! ### Chart Engine (`core/analyzer.py`, `DataAnalyzer`)

The rendering side effects are abstracted into an `Oracle`:
`gen` is `LLMClient.generate_chart_code` keyed by the chart-type hint of
the request (`none` covers both an unavailable generator and an unusable
empty reply), `execOk code` says whether `exec`-uting a generated
instruction and saving its figure succeeds, and `fallbackOk base` says
whether the deterministic fallback render with file base `base` succeeds.
Everything else — the slot guards, the running count, the appends to the
chart list — is translated from `DataAnalyzer.analyze` line by line. -/

/-- One entry of the chart list of the analyzer (`type`, `title`, `filename`). -/
structure Chart where
  ctype : String
  title : String
  filename : String
deriving DecidableEq, Repr

/-- The mutable state of the analyzer: the chart list and the running count. -/
structure AState where
  charts : List Chart
  count : ℕ
deriving DecidableEq, Repr

/-- The environment of one automatic run: the replies of the generator and the
success of each render. -/
structure Oracle where
  gen : String → Option String
  execOk : String → Bool
  fallbackOk : String → Bool

/-- Sanitize a file base as `_save_plot` does: spaces to underscores,
path separators removed. -/
def sanitizeBase (s : String) : String :=
  ((s.replace " " "_").replace "/" "").replace "\\" ""

/-- `DataAnalyzer._save_plot`: append a `basic` chart entry. -/
def savePlot (title base : String) (st : AState) : AState :=
  { st with charts := st.charts ++ [⟨"basic", title, sanitizeBase base ++ ".png"⟩] }

/-- `DataAnalyzer._execute_plot_code`: run a generated instruction; on
success append one `custom` chart entry and return `true`; on any
execution or save error leave the chart list untouched and return `false`. -/
def executePlotCode (o : Oracle) (code title base : String) (st : AState) :
    AState × Bool :=
  if o.execOk code then
    ({ st with charts := st.charts ++ [⟨"custom", title, base ++ ".png"⟩] }, true)
  else (st, false)

/-- `DataAnalyzer._create_histogram`: deterministic fallback; on a render
error the chart is simply not appended. -/
def createHistogram (o : Oracle) (col : String) (st : AState) : AState :=
  if o.fallbackOk ("hist_" ++ col) then
    savePlot ("Distribution of " ++ col) ("hist_" ++ col) st
  else st

/-- `DataAnalyzer._create_bar_chart`: deterministic fallback. -/
def createBarChart (o : Oracle) (col : String) (st : AState) : AState :=
  if o.fallbackOk ("bar_" ++ col) then
    savePlot ("Top categories in " ++ col) ("bar_" ++ col) st
  else st

/-- `DataAnalyzer._create_boxplot`: deterministic fallback over the first
five numeric columns. -/
def createBoxplot (o : Oracle) (_cols : List String) (st : AState) : AState :=
  if o.fallbackOk "boxplot_comparison" then
    savePlot "Box Plot Distribution" "boxplot_comparison" st
  else st

/-- Slot 1 of `DataAnalyzer.analyze`: AI correlation heatmap. The count is
incremented whenever the generator returned an instruction, even when its
execution failed. -/
def slot1 (o : Oracle) (numeric : List String) (st : AState) : AState :=
  if numeric.length > 1 ∧ st.count < 5 then
    match o.gen "Correlation Heatmap" with
    | some code =>
      let p := executePlotCode o code "Correlation Heatmap" "correlation_heatmap" st
      { p.1 with count := p.1.count + 1 }
    | none => st
  else st

/-- Slot 2 of `DataAnalyzer.analyze`: histogram of the first numeric column. -/
def slot2 (o : Oracle) (numeric : List String) (st : AState) : AState :=
  if numeric.length > 0 ∧ st.count < 5 then
    let st' := createHistogram o (numeric.headD "") st
    { st' with count := st'.count + 1 }
  else st

/-- Slot 3 of `DataAnalyzer.analyze`: bar chart of the first categorical
column. -/
def slot3 (o : Oracle) (categorical : List String) (st : AState) : AState :=
  if categorical.length > 0 ∧ st.count < 5 then
    let st' := createBarChart o (categorical.headD "") st
    { st' with count := st'.count + 1 }
  else st

/-- Slot 4 of `DataAnalyzer.analyze`: box plot over the first five numeric
columns. -/
def slot4 (o : Oracle) (numeric : List String) (st : AState) : AState :=
  if numeric.length > 0 ∧ st.count < 5 then
    let st' := createBoxplot o (numeric.take 5) st
    { st' with count := st'.count + 1 }
  else st

/-- Slot 5 of `DataAnalyzer.analyze`: AI relationship plot; same counting
behaviour as slot 1. -/
def slot5 (o : Oracle) (numeric : List String) (st : AState) : AState :=
  if numeric.length > 1 ∧ st.count < 5 then
    match o.gen "Scatter Plot or Line Chart" with
    | some code =>
      let p := executePlotCode o code "Key Relationship Analysis" "ai_relationship_plot" st
      { p.1 with count := p.1.count + 1 }
    | none => st
  else st

/-- `DataAnalyzer.analyze`: the five slots in source order, starting from
an empty chart list and a zero count. -/
def analyze (o : Oracle) (numeric categorical : List String) : AState :=
  slot5 o numeric (slot4 o numeric (slot3 o categorical
    (slot2 o numeric (slot1 o numeric ⟨[], 0⟩))))

/-! ### Orchestrator (`core/agent.py`, `Agent.run_analysis`)

The run is modelled as the trace of its externally visible Result-Store
events. A `failAt` parameter names the stage whose body raises (the
`except` clause catches anything thrown inside the `try`); `Stage.load`
covers both an unreadable file and an empty loaded dataframe, which raise
the same `ValueError`. The `save_analysis_result` of step 7 catches its own
errors internally and so cannot abort the run. -/

/-- An externally visible Result-Store event of a run. -/
inductive Ev where
  | status (s : String)
  | savedCleaned
  | artifact (kind : String)
deriving DecidableEq, Repr

/-- The pipeline stage whose body raises, when any. -/
inductive Stage where
  | loadS
  | cleanS
  | profileS
  | chartsS
  | insightsS
  | reportS
deriving DecidableEq, Repr

/-- `Agent.run_analysis` as an event trace plus its boolean result:
status `analyzing`, load, clean, save of the cleaned dataset, profile,
charts, insights, report assembly, then the four artifact saves of step 7,
status `completed`; any raising stage jumps to the `except` clause, which
sets status `error` and returns `False`. -/
def runAnalysis (failAt : Option Stage) : List Ev × Bool :=
  let evs := [Ev.status "analyzing"]
  if failAt = some Stage.loadS then (evs ++ [Ev.status "error"], false)
  else if failAt = some Stage.cleanS then (evs ++ [Ev.status "error"], false)
  else
    let evs := evs ++ [Ev.savedCleaned]
    if failAt = some Stage.profileS then (evs ++ [Ev.status "error"], false)
    else if failAt = some Stage.chartsS then (evs ++ [Ev.status "error"], false)
    else if failAt = some Stage.insightsS then (evs ++ [Ev.status "error"], false)
    else if failAt = some Stage.reportS then (evs ++ [Ev.status "error"], false)
    else
      (evs ++ [Ev.artifact "profile", Ev.artifact "charts",
        Ev.artifact "insights", Ev.artifact "report", Ev.status "completed"], true)

/-! ### Concrete example data used by the theorems below -/

/-- A clean single-column dataframe: numeric `[1, 2, 3]`, nothing for any
cleaning step to change. -/
def dfAudit : DF :=
  ⟨[⟨"n", DType.numeric, [some (Val.num 1), some (Val.num 2), some (Val.num 3)]⟩]⟩

/-- Two columns over two rows: `A` is text `["1", missing]`, `B` is
numeric `[1, 2]`. -/
def dfIdem : DF :=
  ⟨[⟨"A", DType.object, [some (Val.str "1"), none]⟩,
    ⟨"B", DType.numeric, [some (Val.num 1), some (Val.num 2)]⟩]⟩

/-- The first cleaning of `dfIdem`: `A` is mode-filled to `["1", "1"]`
and stays text, `B` is unchanged. -/
def dfIdemOnce : DF :=
  ⟨[⟨"A", DType.object, [some (Val.str "1"), some (Val.str "1")]⟩,
    ⟨"B", DType.numeric, [some (Val.num 1), some (Val.num 2)]⟩]⟩

/-- The second cleaning of `dfIdem`: now 100% of `A` converts, so the
type-fixing step turns it numeric. -/
def dfIdemTwice : DF :=
  ⟨[⟨"A", DType.numeric, [some (Val.num 1), some (Val.num 1)]⟩,
    ⟨"B", DType.numeric, [some (Val.num 1), some (Val.num 2)]⟩]⟩

/-- A numeric column of two cells with exactly one missing: 50.0% missing. -/
def colHalf : Col := ⟨"x", DType.numeric, [some (Val.num 1), none]⟩

/-- A numeric column of 100 cells with 49 missing: 49% missing. -/
def colFortyNine : Col :=
  ⟨"y", DType.numeric,
    List.replicate 51 (some (Val.num 1)) ++ List.replicate 49 none⟩

/-- A text column of 10 cells of which exactly 7 parse as numbers: a 70%
conversion rate, sitting exactly on the claimed boundary. -/
def colSeventy : Col :=
  ⟨"t", DType.object,
    [some (Val.str "1"), some (Val.str "2"), some (Val.str "3"),
     some (Val.str "4"), some (Val.str "5"), some (Val.str "6"),
     some (Val.str "7"), some (Val.str "a"), some (Val.str "b"),
     some (Val.str "c")]⟩

/-- A text column of 10 cells of which 8 parse as numbers: an 80%
conversion rate, above the threshold. -/
def colEighty : Col :=
  ⟨"t", DType.object,
    [some (Val.str "1"), some (Val.str "2"), some (Val.str "3"),
     some (Val.str "4"), some (Val.str "5"), some (Val.str "6"),
     some (Val.str "7"), some (Val.str "8"), some (Val.str "b"),
     some (Val.str "c")]⟩

/-- A numeric-typed column with exactly 8 distinct values (the flag-like
column of the reclassification example). -/
def colCodes : Col :=
  ⟨"code", DType.numeric,
    [some (Val.num 0), some (Val.num 1), some (Val.num 2), some (Val.num 3),
     some (Val.num 4), some (Val.num 5), some (Val.num 6), some (Val.num 7)]⟩

/-- An environment where the generator always answers and every render
succeeds. -/
def oAllOk : Oracle :=
  ⟨fun _ => some "plt.plot(df)", fun _ => true, fun _ => true⟩

/-- An environment where the generator is unavailable (always no result)
but the deterministic fallbacks render fine. -/
def oGenNone : Oracle :=
  ⟨fun _ => none, fun _ => true, fun _ => true⟩

/-- An environment where the generator always answers but executing any
generated instruction fails; fallbacks render fine. -/
def oExecFail : Oracle :=
  ⟨fun _ => some "plt.plot(undefined_name)", fun _ => false, fun _ => true⟩

/-! ## Theorems settling the claims -/

/-- C3 counterexample: a numeric column with exactly 50.0% missing is NOT
kept as-is — the `> 50` test in the code fails at exactly 50, so the column
falls into the imputation branch and its missing cell is filled with the
pre-imputation median. -/
theorem c3_half_missing_imputed :
    (fillMissingCol 2 colHalf).1.cells = [some (Val.num 1), some (Val.num 1)] ∧
    (fillMissingCol 2 colHalf).1 ≠ colHalf :=
  of_decide_eq_true (by with_unfolding_all rfl)

/-- C3 (amended): per column, a missing share strictly above 50% is kept
as-is; otherwise a numeric column with at least one missing cell is filled
with its pre-imputation median — in particular a column with exactly 50.0%
missing is imputed, and a numeric column with 49% missing is median-filled. -/
theorem c3_missing_policy (nrows : ℕ) (c : Col) :
    (((c.cells.count none : ℚ) / (nrows : ℚ)) * 100 > 50 →
      (fillMissingCol nrows c).1 = c) ∧
    (c.dtype = DType.numeric →
      0 < c.cells.count none →
      ((c.cells.count none : ℚ) / (nrows : ℚ)) * 100 ≤ 50 →
      ∀ m, median (colNumericValues c) = some m →
        (fillMissingCol nrows c).1 =
          { c with cells := c.cells.map (fun cell => some (cell.getD (Val.num m))) }) := by
  constructor
  · intro h
    by_cases h0 : c.cells.count none = 0
    · simp [fillMissingCol, h0]
    · simp [fillMissingCol, h0, h]
  · intro hd hm hle m hmed
    have h0 : ¬ c.cells.count none = 0 := by omega
    simp [fillMissingCol, h0, hd, hmed, not_lt.mpr hle]

/-- C3 witness: a 75%-missing numeric column is kept as-is, and the
49%-missing column `colFortyNine` is filled with its pre-imputation
median 1. -/
theorem c3_missing_policy_witness :
    (fillMissingCol 4 ⟨"w", DType.numeric, [some (Val.num 2), none, none, none]⟩).1 =
      ⟨"w", DType.numeric, [some (Val.num 2), none, none, none]⟩ ∧
    (fillMissingCol 100 colFortyNine).1 =
      { colFortyNine with
        cells := colFortyNine.cells.map (fun cell => some (cell.getD (Val.num 1))) } := by
  constructor
  · exact (c3_missing_policy 4 _).1 (of_decide_eq_true (by with_unfolding_all rfl))
  · exact (c3_missing_policy 100 colFortyNine).2 (of_decide_eq_true (by with_unfolding_all rfl)) (of_decide_eq_true (by with_unfolding_all rfl))
      (of_decide_eq_true (by with_unfolding_all rfl)) 1 (of_decide_eq_true (by with_unfolding_all rfl))

/-- C4 counterexample: a text column in which exactly 70% of the cells
convert is NOT adopted in numeric form — the threshold `> 0.7` in the code is
strict, so an exact 70% conversion rate leaves the column unchanged. -/
theorem c4_seventy_percent_not_adopted :
    ((convertedCells colSeventy).filterMap id).length = 7 ∧
    colSeventy.cells.length = 10 ∧
    (fixTypeCol 10 colSeventy).2 = false ∧
    (fixTypeCol 10 colSeventy).1 = colSeventy :=
  of_decide_eq_true (by with_unfolding_all rfl)

/-- C4 (amended): a text (`object`-typed) column is adopted in numeric
form iff strictly more than 70% of `len(df)` cells convert successfully;
on adoption the cells become the coerced cells, with every
non-convertible cell missing, and otherwise the column is unchanged. -/
theorem c4_type_fix_threshold (nrows : ℕ) (c : Col) (h : c.dtype = DType.object) :
    ((fixTypeCol nrows c).2 = true ↔
      (((convertedCells c).filterMap id).length : ℚ) / (nrows : ℚ) > 7 / 10) ∧
    ((fixTypeCol nrows c).2 = true →
      (fixTypeCol nrows c).1 =
        { c with dtype := DType.numeric, cells := convertedCells c }) ∧
    ((fixTypeCol nrows c).2 = false → (fixTypeCol nrows c).1 = c) := by
  by_cases hc : (((convertedCells c).filterMap id).length : ℚ) / (nrows : ℚ) > 7 / 10
  · simp [fixTypeCol, h, hc]
  · simp [fixTypeCol, h, hc]

/-- C4 witness: the 80%-convertible column `colEighty` is adopted in
numeric form with its coerced cells. -/
theorem c4_type_fix_threshold_witness :
    (fixTypeCol 10 colEighty).2 = true ∧
    (fixTypeCol 10 colEighty).1 =
      { colEighty with dtype := DType.numeric, cells := convertedCells colEighty } := by
  refine ⟨(c4_type_fix_threshold 10 colEighty (of_decide_eq_true (by with_unfolding_all rfl))).1.mpr (of_decide_eq_true (by with_unfolding_all rfl)), ?_⟩
  exact (c4_type_fix_threshold 10 colEighty (of_decide_eq_true (by with_unfolding_all rfl))).2.1
    ((c4_type_fix_threshold 10 colEighty (of_decide_eq_true (by with_unfolding_all rfl))).1.mpr (of_decide_eq_true (by with_unfolding_all rfl)))

/-- C8: a numeric-typed column is classified categorical exactly when its
unique-value count is both less than 10 and less than 5% of the row count. -/
theorem c8_reclassification (nrows : ℕ) (c : Col) (h : c.dtype = DType.numeric) :
    classifyCol nrows c = CKind.categoricalK ↔
      (uniqueCount c < 10 ∧ (uniqueCount c : ℚ) < (nrows : ℚ) * (5 / 100)) := by
  by_cases hc : uniqueCount c < 10 ∧ (uniqueCount c : ℚ) < (nrows : ℚ) * (5 / 100)
  · simp [classifyCol, h, hc]
  · simp [classifyCol, h, hc]

/-- C8 witness: the column with 8 unique values is categorical out of
1,000 rows (0.8%) and numeric out of 50 rows (16%). -/
theorem c8_reclassification_witness :
    classifyCol 1000 colCodes = CKind.categoricalK ∧
    classifyCol 50 colCodes = CKind.numericK := by
  refine ⟨(c8_reclassification 1000 colCodes (of_decide_eq_true (by with_unfolding_all rfl))).mpr
    (of_decide_eq_true (by with_unfolding_all rfl)), ?_⟩
  exact of_decide_eq_true (by with_unfolding_all rfl)

/-- Helper: the length of the conditional entry appended by the
empty-removal step, rephrased through the sum of the two counters. -/
theorem ite_empty_entry_length (a b : ℕ) (msg : String) :
    (if a > 0 || b > 0 then [msg] else []).length =
      if a + b = 0 then 0 else 1 := by
  rcases a with _ | a <;> rcases b with _ | b <;> simp

/-- C6 counterexample: on `dfAudit` — a dataframe no cleaning step
changes — the finished report has only 4 entries for the 6 steps, so not
every step appended an entry (standardization and empty-removal appended
nothing). -/
theorem c6_audit_gap :
    (clean dfAudit).2.length = 4 ∧ (clean dfAudit).2.length < 6 :=
  of_decide_eq_true (by with_unfolding_all rfl)

/-- C6 (amended): the duplicate-removal, type-fixing, missing-value and
outlier steps each append exactly one report entry regardless of whether
they changed anything; column-name standardization appends nothing when
the coercion succeeds, and empty-row/column removal appends an entry
exactly when it removed at least one row or column. -/
theorem c6_report_entries (st : CState) :
    (standardizeColumns st).report = st.report ∧
    (removeDuplicates st).report.length = st.report.length + 1 ∧
    (fixDataTypes st).report.length = st.report.length + 1 ∧
    (handleMissingValues st).report.length = st.report.length + 1 ∧
    (removeEmpty st).report.length =
      st.report.length + (if emptyRemoved st.df = 0 then 0 else 1) ∧
    (detectOutliers st).report.length = st.report.length + 1 := by
  refine ⟨rfl, ?_, ?_, ?_, ?_, ?_⟩
  · simp [removeDuplicates]
  · simp [fixDataTypes]
  · simp [handleMissingValues]
  · simp only [removeEmpty, emptyRemoved, List.length_append,
      ite_empty_entry_length]
  · simp [detectOutliers]

/-- C9 counterexample: the Cleaner is not idempotent — running the full
pipeline on the cleaned output of `dfIdem` changes it again. -/
theorem c9_not_idempotent :
    (clean (clean dfIdem).1).1 ≠ (clean dfIdem).1 :=
  of_decide_eq_true (by with_unfolding_all rfl)

/-- C9 (amended): the Cleaner is not idempotent. Mode imputation can
raise the numeric-convertible share of a text column above the 70% threshold:
the first cleaning of `dfIdem` mode-fills the half-missing text column
`A` to all `"1"` (type unchanged), and the second run then converts `A`
to numeric, so the second output differs from the first. -/
theorem c9_second_run_converts :
    (clean dfIdem).1 = dfIdemOnce ∧
    (clean dfIdemOnce).1 = dfIdemTwice ∧
    dfIdemOnce.cols.map Col.dtype = [DType.object, DType.numeric] ∧
    dfIdemTwice.cols.map Col.dtype = [DType.numeric, DType.numeric] :=
  of_decide_eq_true (by with_unfolding_all rfl)

/-- C7: a run whose dataset cannot be loaded (or loads empty) sets the
session status to error after the initial analyzing transition, never
reaches completed, reports `false` to the caller, and persists no report
artifact (nor any other artifact). -/
theorem c7_load_failure_ends_in_error :
    runAnalysis (some Stage.loadS) =
      ([Ev.status "analyzing", Ev.status "error"], false) ∧
    Ev.status "completed" ∉ (runAnalysis (some Stage.loadS)).1 ∧
    Ev.artifact "report" ∉ (runAnalysis (some Stage.loadS)).1 :=
  of_decide_eq_true (by with_unfolding_all rfl)

/-- C2 counterexample: in a run whose insights stage raises, the profile
and chart artifacts are NOT in the persisted trace even though the
profiling and chart stages completed before the failure — so the profile
was not persisted immediately after its stage and before later stages. -/
theorem c2_profile_lost_on_later_failure :
    runAnalysis (some Stage.insightsS) =
      ([Ev.status "analyzing", Ev.savedCleaned, Ev.status "error"], false) ∧
    Ev.artifact "profile" ∉ (runAnalysis (some Stage.insightsS)).1 ∧
    Ev.artifact "charts" ∉ (runAnalysis (some Stage.insightsS)).1 :=
  of_decide_eq_true (by with_unfolding_all rfl)

/-- C2 (amended): only the cleaned dataset is persisted immediately after
its stage; profile, charts and insights (and then the report) are
persisted together in one final persistence step after report assembly.
A failure in any stage after cleaning therefore leaves the cleaned
dataset persisted but loses profile, charts and insights. -/
theorem c2_persistence_schedule :
    runAnalysis none =
      ([Ev.status "analyzing", Ev.savedCleaned, Ev.artifact "profile",
        Ev.artifact "charts", Ev.artifact "insights", Ev.artifact "report",
        Ev.status "completed"], true) ∧
    (∀ s : Stage, s ≠ Stage.loadS → s ≠ Stage.cleanS →
      runAnalysis (some s) =
        ([Ev.status "analyzing", Ev.savedCleaned, Ev.status "error"], false)) ∧
    runAnalysis (some Stage.cleanS) =
      ([Ev.status "analyzing", Ev.status "error"], false) := by
  refine ⟨of_decide_eq_true (by with_unfolding_all rfl), ?_,
    of_decide_eq_true (by with_unfolding_all rfl)⟩
  intro s h1 h2
  cases s
  · exact absurd rfl h1
  · exact absurd rfl h2
  all_goals exact of_decide_eq_true (by with_unfolding_all rfl)

/-- C2 witness: the amended schedule applied at the insights stage — the
cleaned dataset is already persisted, nothing else is. -/
theorem c2_persistence_schedule_witness :
    runAnalysis (some Stage.profileS) =
      ([Ev.status "analyzing", Ev.savedCleaned, Ev.status "error"], false) :=
  c2_persistence_schedule.2.1 Stage.profileS
    (of_decide_eq_true (by with_unfolding_all rfl))
    (of_decide_eq_true (by with_unfolding_all rfl))

/-- C10: chart-render atomicity of `_execute_plot_code` — on a failing
execution (or save) the method returns `false` and the chart list is
exactly as before; on success exactly one chart entry is appended and the
method returns `true`. -/
theorem c10_execute_plot_code_atomic (o : Oracle) (code title base : String)
    (st : AState) :
    (o.execOk code = false → executePlotCode o code title base st = (st, false)) ∧
    (o.execOk code = true →
      executePlotCode o code title base st =
        ({ st with charts := st.charts ++ [⟨"custom", title, base ++ ".png"⟩] },
         true)) := by
  constructor <;> intro h <;> simp [executePlotCode, h]

/-- C10 witness: both cases at concrete inputs — a failing oracle leaves
the state untouched, a succeeding one appends exactly one entry. -/
theorem c10_execute_plot_code_atomic_witness :
    executePlotCode oExecFail "x" "t" "b" ⟨[], 0⟩ = (⟨[], 0⟩, false) ∧
    executePlotCode oAllOk "x" "t" "b" ⟨[], 0⟩ =
      (⟨[⟨"custom", "t", "b.png"⟩], 0⟩, true) :=
  ⟨(c10_execute_plot_code_atomic oExecFail "x" "t" "b" ⟨[], 0⟩).1 rfl,
   (c10_execute_plot_code_atomic oAllOk "x" "t" "b" ⟨[], 0⟩).2 rfl⟩

/-! Helper lemmas describing one slot of `analyze` under a known oracle. -/

/-- Slot 1 with an instruction returned and execution succeeding: one
custom chart is appended and the count is incremented. -/
theorem slot1_some_ok (o : Oracle) (numeric : List String) (charts : List Chart)
    (n : ℕ) (h1 : 1 < numeric.length) (h2 : n < 5) (code : String)
    (hg : o.gen "Correlation Heatmap" = some code) (he : o.execOk code = true) :
    slot1 o numeric ⟨charts, n⟩ =
      ⟨charts ++ [⟨"custom", "Correlation Heatmap", "correlation_heatmap.png"⟩],
       n + 1⟩ := by
  simp [slot1, executePlotCode, h1, h2, hg, he]

/-- Slot 1 with an instruction returned but execution failing: no chart
is appended yet the count is still incremented. -/
theorem slot1_some_fail (o : Oracle) (numeric : List String) (charts : List Chart)
    (n : ℕ) (h1 : 1 < numeric.length) (h2 : n < 5) (code : String)
    (hg : o.gen "Correlation Heatmap" = some code) (he : o.execOk code = false) :
    slot1 o numeric ⟨charts, n⟩ = ⟨charts, n + 1⟩ := by
  simp [slot1, executePlotCode, h1, h2, hg, he]

/-- Slot 1 with no instruction returned: the state is unchanged. -/
theorem slot1_none (o : Oracle) (numeric : List String) (st : AState)
    (hg : o.gen "Correlation Heatmap" = none) :
    slot1 o numeric st = st := by
  simp [slot1, hg]

/-- Slot 2 with the histogram render succeeding. -/
theorem slot2_ok (o : Oracle) (numeric : List String) (charts : List Chart)
    (n : ℕ) (h1 : 0 < numeric.length) (h2 : n < 5)
    (hf : o.fallbackOk ("hist_" ++ numeric.headD "") = true) :
    slot2 o numeric ⟨charts, n⟩ =
      ⟨charts ++ [⟨"basic", "Distribution of " ++ numeric.headD "",
        sanitizeBase ("hist_" ++ numeric.headD "") ++ ".png"⟩], n + 1⟩ := by
  rw [List.headD_eq_head?_getD] at hf
  simp [slot2, createHistogram, savePlot, h1, h2, hf]

/-- Slot 3 with the bar-chart render succeeding. -/
theorem slot3_ok (o : Oracle) (categorical : List String) (charts : List Chart)
    (n : ℕ) (h1 : 0 < categorical.length) (h2 : n < 5)
    (hf : o.fallbackOk ("bar_" ++ categorical.headD "") = true) :
    slot3 o categorical ⟨charts, n⟩ =
      ⟨charts ++ [⟨"basic", "Top categories in " ++ categorical.headD "",
        sanitizeBase ("bar_" ++ categorical.headD "") ++ ".png"⟩], n + 1⟩ := by
  rw [List.headD_eq_head?_getD] at hf
  simp [slot3, createBarChart, savePlot, h1, h2, hf]

/-- Slot 4 with the box-plot render succeeding. -/
theorem slot4_ok (o : Oracle) (numeric : List String) (charts : List Chart)
    (n : ℕ) (h1 : 0 < numeric.length) (h2 : n < 5)
    (hf : o.fallbackOk "boxplot_comparison" = true) :
    slot4 o numeric ⟨charts, n⟩ =
      ⟨charts ++ [⟨"basic", "Box Plot Distribution",
        sanitizeBase "boxplot_comparison" ++ ".png"⟩], n + 1⟩ := by
  simp [slot4, createBoxplot, savePlot, h1, h2, hf]

/-- Slot 5 with an instruction returned and execution succeeding. -/
theorem slot5_some_ok (o : Oracle) (numeric : List String) (charts : List Chart)
    (n : ℕ) (h1 : 1 < numeric.length) (h2 : n < 5) (code : String)
    (hg : o.gen "Scatter Plot or Line Chart" = some code)
    (he : o.execOk code = true) :
    slot5 o numeric ⟨charts, n⟩ =
      ⟨charts ++ [⟨"custom", "Key Relationship Analysis",
        "ai_relationship_plot.png"⟩], n + 1⟩ := by
  simp [slot5, executePlotCode, h1, h2, hg, he]

/-- Slot 5 with an instruction returned but execution failing. -/
theorem slot5_some_fail (o : Oracle) (numeric : List String) (charts : List Chart)
    (n : ℕ) (h1 : 1 < numeric.length) (h2 : n < 5) (code : String)
    (hg : o.gen "Scatter Plot or Line Chart" = some code)
    (he : o.execOk code = false) :
    slot5 o numeric ⟨charts, n⟩ = ⟨charts, n + 1⟩ := by
  simp [slot5, executePlotCode, h1, h2, hg, he]

/-- Slot 5 with no instruction returned. -/
theorem slot5_none (o : Oracle) (numeric : List String) (st : AState)
    (hg : o.gen "Scatter Plot or Line Chart" = none) :
    slot5 o numeric st = st := by
  simp [slot5, hg]

/-- C1: on a dataset with at least 2 numeric and at least 1 categorical
column, the automatic run produces exactly 5 charts when the generator
answers every request and every render succeeds, and exactly 3 charts —
the deterministic histogram, bar-chart and box-plot fallbacks — when the
generator always returns no result. -/
theorem c1_chart_cap (o₁ o₂ : Oracle) (numeric categorical : List String)
    (hn : 2 ≤ numeric.length) (hcat : 1 ≤ categorical.length)
    (hg1 : ∀ s, (o₁.gen s).isSome) (he1 : ∀ code, o₁.execOk code = true)
    (hf1 : ∀ b, o₁.fallbackOk b = true)
    (hg2 : ∀ s, o₂.gen s = none) (hf2 : ∀ b, o₂.fallbackOk b = true) :
    (analyze o₁ numeric categorical).charts.length = 5 ∧
    (analyze o₂ numeric categorical).charts.length = 3 ∧
    (analyze o₂ numeric categorical).charts.map Chart.title =
      ["Distribution of " ++ numeric.headD "",
       "Top categories in " ++ categorical.headD "",
       "Box Plot Distribution"] := by
  obtain ⟨c1, hc1⟩ := Option.isSome_iff_exists.mp (hg1 "Correlation Heatmap")
  obtain ⟨c5, hc5⟩ := Option.isSome_iff_exists.mp (hg1 "Scatter Plot or Line Chart")
  have h1 : 1 < numeric.length := by omega
  have h0 : 0 < numeric.length := by omega
  have hc0 : 0 < categorical.length := by omega
  have e1 : analyze o₁ numeric categorical =
      ⟨[] ++ [⟨"custom", "Correlation Heatmap", "correlation_heatmap.png"⟩] ++
        [⟨"basic", "Distribution of " ++ numeric.headD "",
          sanitizeBase ("hist_" ++ numeric.headD "") ++ ".png"⟩] ++
        [⟨"basic", "Top categories in " ++ categorical.headD "",
          sanitizeBase ("bar_" ++ categorical.headD "") ++ ".png"⟩] ++
        [⟨"basic", "Box Plot Distribution",
          sanitizeBase "boxplot_comparison" ++ ".png"⟩] ++
        [⟨"custom", "Key Relationship Analysis", "ai_relationship_plot.png"⟩],
       5⟩ := by
    rw [analyze, slot1_some_ok o₁ numeric [] 0 h1 (by omega) c1 hc1 (he1 c1),
      slot2_ok o₁ numeric _ 1 h0 (by omega) (hf1 _),
      slot3_ok o₁ categorical _ 2 hc0 (by omega) (hf1 _),
      slot4_ok o₁ numeric _ 3 h0 (by omega) (hf1 _),
      slot5_some_ok o₁ numeric _ 4 h1 (by omega) c5 hc5 (he1 c5)]
  have e2 : analyze o₂ numeric categorical =
      ⟨[] ++ [⟨"basic", "Distribution of " ++ numeric.headD "",
          sanitizeBase ("hist_" ++ numeric.headD "") ++ ".png"⟩] ++
        [⟨"basic", "Top categories in " ++ categorical.headD "",
          sanitizeBase ("bar_" ++ categorical.headD "") ++ ".png"⟩] ++
        [⟨"basic", "Box Plot Distribution",
          sanitizeBase "boxplot_comparison" ++ ".png"⟩],
       3⟩ := by
    rw [analyze, slot1_none o₂ numeric _ (hg2 _),
      slot2_ok o₂ numeric [] 0 h0 (by omega) (hf2 _),
      slot3_ok o₂ categorical _ 1 hc0 (by omega) (hf2 _),
      slot4_ok o₂ numeric _ 2 h0 (by omega) (hf2 _),
      slot5_none o₂ numeric _ (hg2 _)]
  refine ⟨?_, ?_, ?_⟩
  · rw [e1]
    rfl
  · rw [e2]
    rfl
  · rw [e2]
    rfl

/-- C1 witness: the cap at a concrete dataset shape and concrete oracles. -/
theorem c1_chart_cap_witness :
    (analyze oAllOk ["a", "b"] ["c"]).charts.length = 5 ∧
    (analyze oGenNone ["a", "b"] ["c"]).charts.length = 3 ∧
    (analyze oGenNone ["a", "b"] ["c"]).charts.map Chart.title =
      ["Distribution of " ++ (["a", "b"].headD ""),
       "Top categories in " ++ (["c"].headD ""),
       "Box Plot Distribution"] :=
  c1_chart_cap oAllOk oGenNone ["a", "b"] ["c"]
    (of_decide_eq_true (by with_unfolding_all rfl))
    (of_decide_eq_true (by with_unfolding_all rfl))
    (fun _ => rfl) (fun _ => rfl) (fun _ => rfl) (fun _ => rfl) (fun _ => rfl)

/-- C5 counterexample: with two numeric columns, an instruction returned
for slot 1, and its execution failing, the state after slot 1 has an
empty chart list but a running count of 1 — the count used to gate the
remaining slots IS incremented for the failed slot, contrary to the
claim. -/
theorem c5_failed_slot_increments_count :
    (slot1 oExecFail ["a", "b"] ⟨[], 0⟩).count = 1 ∧
    (slot1 oExecFail ["a", "b"] ⟨[], 0⟩).charts = [] :=
  of_decide_eq_true (by with_unfolding_all rfl)

/-- C5 (amended): when executing a generated instruction fails, the
partial artifact is discarded and the chart list is not extended, the
failure is logged, and the run continues through the remaining slots —
but the running count IS incremented for the failed AI slots. This never
affects gating, since at most 4 increments can occur before the final
slot: with every execution failing, the run still yields the 3 fallback
charts while the count reaches 5. -/
theorem c5_failure_skips_chart_not_count (o : Oracle)
    (numeric categorical : List String)
    (hn : 2 ≤ numeric.length) (hcat : 1 ≤ categorical.length)
    (hg : ∀ s, (o.gen s).isSome) (he : ∀ code, o.execOk code = false)
    (hf : ∀ b, o.fallbackOk b = true) :
    (analyze o numeric categorical).charts.map Chart.ctype =
      ["basic", "basic", "basic"] ∧
    (analyze o numeric categorical).count = 5 := by
  obtain ⟨c1, hc1⟩ := Option.isSome_iff_exists.mp (hg "Correlation Heatmap")
  obtain ⟨c5, hc5⟩ := Option.isSome_iff_exists.mp (hg "Scatter Plot or Line Chart")
  have h1 : 1 < numeric.length := by omega
  have h0 : 0 < numeric.length := by omega
  have hc0 : 0 < categorical.length := by omega
  have e : analyze o numeric categorical =
      ⟨[] ++ [⟨"basic", "Distribution of " ++ numeric.headD "",
          sanitizeBase ("hist_" ++ numeric.headD "") ++ ".png"⟩] ++
        [⟨"basic", "Top categories in " ++ categorical.headD "",
          sanitizeBase ("bar_" ++ categorical.headD "") ++ ".png"⟩] ++
        [⟨"basic", "Box Plot Distribution",
          sanitizeBase "boxplot_comparison" ++ ".png"⟩],
       5⟩ := by
    rw [analyze, slot1_some_fail o numeric [] 0 h1 (by omega) c1 hc1 (he c1),
      slot2_ok o numeric _ 1 h0 (by omega) (hf _),
      slot3_ok o categorical _ 2 hc0 (by omega) (hf _),
      slot4_ok o numeric _ 3 h0 (by omega) (hf _),
      slot5_some_fail o numeric _ 4 h1 (by omega) c5 hc5 (he c5)]
  rw [e]
  constructor <;> rfl

/-- C5 witness: the amended behaviour at a concrete dataset shape and the
always-failing oracle. -/
theorem c5_failure_skips_chart_not_count_witness :
    (analyze oExecFail ["a", "b"] ["c"]).charts.map Chart.ctype =
      ["basic", "basic", "basic"] ∧
    (analyze oExecFail ["a", "b"] ["c"]).count = 5 :=
  c5_failure_skips_chart_not_count oExecFail ["a", "b"] ["c"]
    (of_decide_eq_true (by with_unfolding_all rfl))
    (of_decide_eq_true (by with_unfolding_all rfl))
    (fun _ => rfl) (fun _ => rfl) (fun _ => rfl)

end InSighto
